import Mathlib

/-!
Verification of the accident-detection core of the repository
(app.py): the per-frame detection state machine, the alert cooldown
gate, the alert dispatch fan-out, and the accident history query.

Floats of the source are modelled as rationals; a frame is modelled as
its grayscale pixel buffer (a list of luminance values); growth of
global mutable state is made explicit by threading state values.
-/

/-- Frame: the grayscale pixel buffer of one camera frame.  The source
converts a BGR frame with cvtColor before differencing; the model works
directly on the resulting luminance values. -/
def Frame : Type := List ℚ

/-- motionScore previous current: mean absolute per-pixel difference of
the two grayscale frames, normalized by 255.  Mirrors
np.mean(cv2.absdiff(gray_current, gray_previous)) / 255.0. -/
def motionScore (previous current : Frame) : ℚ :=
  let frame_diff : List ℚ := List.zipWith (fun a b => |a - b|) current previous
  (frame_diff.sum / frame_diff.length) / 255

/-- YoloBox: one raw detection as read off a result box, with class id
int(box.cls[0]), confidence float(box.conf[0]), and the optional corner
tuple box.xyxy[0] (reading it is wrapped in try/except in the source, so
it is modelled as possibly absent). -/
structure YoloBox where
  cls : ℤ
  conf : ℚ
  xyxy : Option (ℚ × ℚ × ℚ × ℚ)

/-- BoxInfo: the dictionary appended to boxes_info for the frontend
overlay. -/
structure BoxInfo where
  x1 : ℚ
  y1 : ℚ
  x2 : ℚ
  y2 : ℚ
  class_id : ℤ
  confidence : ℚ

/-- DetectorState: the mutable fields of AccidentDetector. -/
structure DetectorState where
  accident_threshold : ℚ
  previous_frame : Option Frame
  accident_detected : Bool

/-- DetectionOutcome: the tuple (is_accident, accident_score,
vehicles_detected, boxes_info) returned by
AccidentDetector.detect_accident. -/
structure DetectionOutcome where
  is_accident : Bool
  accident_score : ℚ
  vehicles_detected : ℕ
  boxes : List BoxInfo

/-- Vehicle class identifiers checked in the source: car, motorcycle,
bus, truck. -/
def vehicleClasses : List ℤ := [2, 3, 5, 7]

/-- processBoxes prev frame boxes (score, count, infos): the inner
for-box loop of detect_accident.  Each box with a vehicle class id and
confidence above 0.3 increments vehicles_detected, appends its corners
to boxes_info when they can be read, and, when a previous frame exists
and the motion score exceeds 0.15, adds confidence times motion to
accident_score. -/
def processBoxes (prev : Option Frame) (frame : Frame) :
    List YoloBox → ℚ × ℕ × List BoxInfo → ℚ × ℕ × List BoxInfo
  | [], acc => acc
  | box :: rest, (accident_score, vehicles_detected, boxes_info) =>
    if box.cls ∈ vehicleClasses ∧ box.conf > 0.3 then
      let vehicles_detected := vehicles_detected + 1
      let boxes_info :=
        match box.xyxy with
        | some (x1, y1, x2, y2) =>
          boxes_info ++ [⟨x1, y1, x2, y2, box.cls, box.conf⟩]
        | none => boxes_info
      let accident_score :=
        match prev with
        | some p =>
          let motion_score := motionScore p frame
          if motion_score > 0.15 then accident_score + box.conf * motion_score
          else accident_score
        | none => accident_score
      processBoxes prev frame rest (accident_score, vehicles_detected, boxes_info)
    else
      processBoxes prev frame rest (accident_score, vehicles_detected, boxes_info)

/-- processResult: the body of one iteration of the outer for-result
loop up to the accumulator: when result.boxes is present the inner loop
runs, otherwise the accumulator is unchanged. -/
def processResult (prev : Option Frame) (frame : Frame)
    (r : Option (List YoloBox)) (acc : ℚ × ℕ × List BoxInfo) :
    ℚ × ℕ × List BoxInfo :=
  match r with
  | some boxes => processBoxes prev frame boxes acc
  | none => acc

/-- processResults: the outer for-result loop of detect_accident.  After
each result the previous frame is replaced by the current one and the
edge trigger runs: when the accumulated score exceeds the threshold with
at least one vehicle and the flag is still clear, the flag is set and
the call returns true immediately; when the condition fails the flag is
cleared; falling out of the loop returns false with the accumulators. -/
def processResults (frame : Frame) :
    List (Option (List YoloBox)) → DetectorState → ℚ → ℕ → List BoxInfo →
      DetectionOutcome × DetectorState
  | [], st, score, count, infos => (⟨false, score, count, infos⟩, st)
  | r :: rest, st, score, count, infos =>
    let acc := processResult st.previous_frame frame r (score, count, infos)
    let st1 : DetectorState := { st with previous_frame := some frame }
    if acc.1 > st1.accident_threshold ∧ acc.2.1 > 0 then
      if st1.accident_detected = false then
        (⟨true, acc.1, acc.2.1, acc.2.2⟩, { st1 with accident_detected := true })
      else
        processResults frame rest st1 acc.1 acc.2.1 acc.2.2
    else
      processResults frame rest { st1 with accident_detected := false } acc.1 acc.2.1 acc.2.2

/-- detect_accident: AccidentDetector.detect_accident.  When computer
vision, YOLO, or the loaded model is missing it returns the mock outcome
built from the two pseudo-random draws (uniform confidence and vehicle
count) with the same threshold and vehicle-count rule and leaves the
state untouched; otherwise it runs the result loop with fresh
accumulators. -/
def detect_accident (cv_available yolo_available model_loaded : Bool)
    (mock_score : ℚ) (mock_vehicles : ℕ)
    (st : DetectorState) (frame : Frame)
    (results : List (Option (List YoloBox))) :
    DetectionOutcome × DetectorState :=
  if cv_available = false ∨ yolo_available = false ∨ model_loaded = false then
    (⟨decide (mock_score > st.accident_threshold ∧ 0 < mock_vehicles),
      mock_score, mock_vehicles, []⟩, st)
  else
    processResults frame results st 0 0 []

/-- evaluateFrame: the model-backed path of detect_accident on one
frame.  The YOLO call on a single image yields exactly one result
object, so a frame is processed as the singleton result list. -/
def evaluateFrame (st : DetectorState) (frame : Frame)
    (r : Option (List YoloBox)) : DetectionOutcome × DetectorState :=
  processResults frame [r] st 0 0 []

/-- rawCondition: the raw accident condition of one model-backed call,
accumulated score above the running threshold together with a positive
vehicle count, computed exactly as the call computes it. -/
def rawCondition (st : DetectorState) (frame : Frame)
    (r : Option (List YoloBox)) : Bool :=
  let acc := processResult st.previous_frame frame r (0, 0, [])
  decide (acc.1 > st.accident_threshold ∧ acc.2.1 > 0)

/-- survivingVehicleBoxes: the detections of a frame that survive the
class and confidence filter. -/
def survivingVehicleBoxes (boxes : List YoloBox) : List YoloBox :=
  boxes.filter (fun b => decide (b.cls ∈ vehicleClasses ∧ b.conf > 0.3))

/-- ALERT_COOLDOWN_SECONDS: default cooldown of the alert gate, the
fallback value of the environment lookup. -/
def ALERT_COOLDOWN_SECONDS : ℚ := 20

/-- last_alert_time_init: initial value of the global last_alert_time. -/
def last_alert_time_init : ℚ := 0

/-- gateCheck cooldown last now: the cooldown gate of the detect route,
the comparison now - last_alert_time >= ALERT_COOLDOWN_SECONDS together
with the timestamp it leaves behind (now on a pass, unchanged on a
fail). -/
def gateCheck (cooldown last_alert_time now : ℚ) : Bool × ℚ :=
  if now - last_alert_time ≥ cooldown then (true, now) else (false, last_alert_time)

/-- updateThreshold: the per-request threshold override of the detect
route, max(0.1, min(1.0, threshold)) when a numeric threshold was
supplied, otherwise no change (absence and conversion failure both land
in the silent except branch). -/
def updateThreshold (det : DetectorState) (threshold : Option ℚ) : DetectorState :=
  match threshold with
  | none => det
  | some t => { det with accident_threshold := max 0.1 (min 1.0 t) }

/-- applyGate: the alert block of the detect route.  Returns the
alert_sent field (absent when no accident), the alert_suppressed field,
the new last_alert_time, and whether send_alert was invoked.  The
return value of send_alert is never consulted by the route. -/
def applyGate (cooldown : ℚ) (is_accident : Bool) (now last : ℚ) :
    Option Bool × Bool × ℚ × Bool :=
  if is_accident then
    let g := gateCheck cooldown last now
    if g.1 then (some true, false, g.2, true)
    else (some false, true, g.2, false)
  else (none, false, last, false)

/-- ServerEnv: availability flags fixed at process start, plus the
configured cooldown. -/
structure ServerEnv where
  cv_available : Bool
  yolo_available : Bool
  model_loaded : Bool
  cooldown : ℚ

/-- ServerState: the global mutable state touched by the detect route. -/
structure ServerState where
  detector : DetectorState
  last_alert_time : ℚ

/-- DetectRequest: the request body fields the route reads; threshold is
none when absent or not convertible to a number. -/
structure DetectRequest where
  image_present : Bool
  threshold : Option ℚ

/-- RandomDraws: the pseudo-random values drawn on the two mock paths,
passed in explicitly: the route mock draws random.random(),
random.uniform(0.1, 0.95) and random.randint(0, 3); the detector mock
draws random.uniform(0.1, 0.9) and random.randint(0, 3). -/
structure RandomDraws where
  route_coin : ℚ
  route_conf : ℚ
  route_vehicles : ℕ
  mock_score : ℚ
  mock_vehicles : ℕ

/-- DetectResponse: the JSON object the route returns; optional fields
model keys that are present only on some paths. -/
structure DetectResponse where
  error : Bool
  accident_detected : Bool
  confidence : ℚ
  vehicles_detected : ℕ
  boxes : List BoxInfo
  demo_mode : Option Bool
  alert_sent : Option Bool
  alert_suppressed : Option Bool

/-- RouteResult: response, whether send_alert was invoked, and the
global state left behind. -/
structure RouteResult where
  response : DetectResponse
  dispatch_called : Bool
  server : ServerState

/-- detect_route: the detect endpoint.  It first applies the threshold
override, then rejects a missing image, then either answers with the
route-level mock (computer vision or YOLO unavailable: a 20 percent
coin decides the accident, demo_mode is set) or runs the detector and
builds the model-backed response (no demo_mode key); on an
accident-positive outcome the cooldown gate decides between dispatching
send_alert (its boolean result ignored) and suppressing. -/
def detect_route (env : ServerEnv) (srv : ServerState) (req : DetectRequest)
    (draws : RandomDraws) (now : ℚ) (frame : Frame)
    (results : List (Option (List YoloBox))) (send_alert_result : Bool) :
    RouteResult :=
  let det0 := updateThreshold srv.detector req.threshold
  if req.image_present = false then
    ⟨⟨true, false, 0, 0, [], none, none, none⟩, false, ⟨det0, srv.last_alert_time⟩⟩
  else if env.cv_available = false ∨ env.yolo_available = false then
    let is_accident := decide (draws.route_coin > 0.8)
    let gate := applyGate env.cooldown is_accident now srv.last_alert_time
    ⟨⟨false, is_accident, draws.route_conf, draws.route_vehicles, [], some true,
       gate.1, gate.2.1⟩, gate.2.2.2, ⟨det0, gate.2.2.1⟩⟩
  else
    let r := detect_accident env.cv_available env.yolo_available env.model_loaded
      draws.mock_score draws.mock_vehicles det0 frame results
    let gate := applyGate env.cooldown r.1.is_accident now srv.last_alert_time
    ⟨⟨false, r.1.is_accident, r.1.accident_score, r.1.vehicles_detected, r.1.boxes,
       none, gate.1, gate.2.1⟩, gate.2.2.2, ⟨r.2, gate.2.2.1⟩⟩

/-- AlertEnv: which collaborators of send_alert are configured and
whether each underlying operation succeeds; sms_ok lists the
per-contact outcome of the Twilio send, aligned with the two hardcoded
emergency contacts. -/
structure AlertEnv where
  mongo_active : Bool
  mongo_insert_ok : Bool
  twilio_active : Bool
  sms_ok : List Bool
  firestore_active : Bool
  firestore_add_ok : Bool
  email_configured : Bool
  email_ok : Bool

/-- emergency_contacts: the two hardcoded recipient numbers, modelled
by index. -/
def emergency_contacts : List ℕ := [0, 1]

/-- DispatchReport: what one send_alert call did.  persisted_primary
records the record write (Mongo insert or in-memory append);
sms_attempted counts contacts for which a send was attempted;
sms_failures lists the contacts whose send raised (caught and logged
inside the loop); mirror_attempted and email_attempted record whether
the Firestore add and the send_email_alert call were reached; returned
is the boolean the function returns, with every escaping exception
converted to false by the outer handler. -/
structure DispatchReport where
  persisted_primary : Bool
  sms_attempted : ℕ
  sms_failures : List ℕ
  mirror_attempted : Bool
  email_attempted : Bool
  returned : Bool

/-- send_alert: the alert dispatch fan-out.  The body runs record
build, primary persistence, the per-contact SMS loop, the Firestore
mirror add, and the email attempt in that order inside one outer
try/except.  Only the per-contact SMS send is individually guarded: a
raising Mongo insert aborts everything after it, and a raising mirror
add skips the email attempt, each landing in the outer handler which
returns false. -/
def send_alert (env : AlertEnv) : DispatchReport :=
  if env.mongo_active = true ∧ env.mongo_insert_ok = false then
    ⟨false, 0, [], false, false, false⟩
  else
    let sms_attempted := if env.twilio_active then emergency_contacts.length else 0
    let sms_failures :=
      if env.twilio_active then
        (List.range emergency_contacts.length).filter
          (fun i => env.sms_ok.getD i true = false)
      else []
    if env.firestore_active = true ∧ env.firestore_add_ok = false then
      ⟨true, sms_attempted, sms_failures, true, false, false⟩
    else
      ⟨true, sms_attempted, sms_failures, env.firestore_active, true, true⟩

/-- AccidentRecord: one stored accident.  Timestamps are ISO-8601
strings whose lexicographic order coincides with chronological order,
modelled as a totally ordered key; the location, coordinate and status
fields play no role in the ordering claim. -/
structure AccidentRecord where
  timestamp : ℕ
  confidence : ℚ
  vehicles_detected : ℕ

/-- tsDesc: the descending-timestamp comparator realised by
sorted(..., key=lambda x: x[timestamp], reverse=True), which orders a
before b when the timestamp of b is at most that of a. -/
def tsDesc (a b : AccidentRecord) : Bool := decide (b.timestamp ≤ a.timestamp)

/-- get_accidents_mem: the in-memory branch of the accidents route,
an explicit descending sort followed by truncation to 50 entries. -/
def get_accidents_mem (db : List AccidentRecord) : List AccidentRecord :=
  (db.mergeSort tsDesc).take 50

/-- get_accidents_mongo: the durable branch of the accidents route.
Modelled from the spec: the source delegates ordering and truncation to
the external store with sort timestamp descending and limit 50, which
this model realises with the same descending sort and truncation. -/
def get_accidents_mongo (stored : List AccidentRecord) : List AccidentRecord :=
  (stored.mergeSort tsDesc).take 50

/-- get_accidents: the accidents route, choosing the durable branch
when a Mongo collection is active and the in-memory branch otherwise. -/
def get_accidents (mongo_backend : Bool) (stored : List AccidentRecord) :
    List AccidentRecord :=
  if mongo_backend then get_accidents_mongo stored else get_accidents_mem stored

/-- GateThread: one request thread executing the gate lines of the
detect route, with its wall-clock reading, a program counter (0 before
the comparison, 1 between the comparison and the assignment, 2 done)
and the comparison outcome it observed. -/
structure GateThread where
  now : ℚ
  pc : ℕ
  passed : Bool

/-- threadStep: one atomic machine step of a gate thread: the
comparison reads the shared last_alert_time, then the assignment writes
it when the comparison passed.  Nothing in the source serializes the
two steps, so another thread may run between them. -/
def threadStep (cooldown : ℚ) (last : ℚ) (t : GateThread) : ℚ × GateThread :=
  match t.pc with
  | 0 => (last, { t with pc := 1, passed := decide (t.now - last ≥ cooldown) })
  | 1 => ((if t.passed then t.now else last), { t with pc := 2 })
  | _ => (last, t)

/-- GateSystem: the shared timestamp plus two concurrent gate threads. -/
structure GateSystem where
  last_alert_time : ℚ
  thread0 : GateThread
  thread1 : GateThread

/-- systemStep: run one step of the chosen thread against the shared
timestamp. -/
def systemStep (cooldown : ℚ) (s : GateSystem) (choice : Bool) : GateSystem :=
  if choice = false then
    let r := threadStep cooldown s.last_alert_time s.thread0
    { s with last_alert_time := r.1, thread0 := r.2 }
  else
    let r := threadStep cooldown s.last_alert_time s.thread1
    { s with last_alert_time := r.1, thread1 := r.2 }

/-- runSchedule: run an interleaving, given as the list of thread
choices. -/
def runSchedule (cooldown : ℚ) (sched : List Bool) (s : GateSystem) : GateSystem :=
  sched.foldl (systemStep cooldown) s

/-- evaluateFrame summarised: the outcome flag is the raw condition
gated by the stored flag (edge trigger), the stored flag afterwards
equals the raw condition, the previous frame is replaced, the threshold
is untouched, and the returned score is the fully accumulated one. -/
theorem evaluateFrame_spec (st : DetectorState) (f : Frame)
    (r : Option (List YoloBox)) :
    (evaluateFrame st f r).1.is_accident
        = (rawCondition st f r && !st.accident_detected)
      ∧ (evaluateFrame st f r).2.accident_detected = rawCondition st f r
      ∧ (evaluateFrame st f r).2.previous_frame = some f
      ∧ (evaluateFrame st f r).2.accident_threshold = st.accident_threshold
      ∧ (evaluateFrame st f r).1.accident_score
          = (processResult st.previous_frame f r (0, 0, [])).1
      ∧ (evaluateFrame st f r).1.vehicles_detected
          = (processResult st.previous_frame f r (0, 0, [])).2.1 := by
  unfold evaluateFrame rawCondition
  by_cases hc : (processResult st.previous_frame f r (0, 0, [])).1
      > st.accident_threshold
      ∧ (processResult st.previous_frame f r (0, 0, [])).2.1 > 0
  · by_cases hf : st.accident_detected = false
    · simp [processResults, hc, hf]
    · simp only [Bool.not_eq_false] at hf
      simp [processResults, hc, hf]
  · simp [processResults, hc]

/-- C1: the model-backed path of detect_accident is edge-triggered:
a true raw condition with a clear flag sets the flag and returns
is_accident true; a false raw condition clears the flag (and returns
false); a true raw condition with the flag already set returns false;
and for two consecutive frames both satisfying the raw condition the
first call returns true and the second returns false. -/
theorem detect_edge_trigger (st : DetectorState) (f : Frame)
    (r : Option (List YoloBox)) :
    (rawCondition st f r = true → st.accident_detected = false →
      (evaluateFrame st f r).1.is_accident = true ∧
      (evaluateFrame st f r).2.accident_detected = true)
    ∧ (rawCondition st f r = false →
      (evaluateFrame st f r).1.is_accident = false ∧
      (evaluateFrame st f r).2.accident_detected = false)
    ∧ (rawCondition st f r = true → st.accident_detected = true →
      (evaluateFrame st f r).1.is_accident = false)
    ∧ (∀ (f2 : Frame) (r2 : Option (List YoloBox)),
      st.accident_detected = false → rawCondition st f r = true →
      rawCondition (evaluateFrame st f r).2 f2 r2 = true →
      (evaluateFrame st f r).1.is_accident = true ∧
      (evaluateFrame (evaluateFrame st f r).2 f2 r2).1.is_accident = false) := by
  obtain ⟨h1, h2, -, -, -, -⟩ := evaluateFrame_spec st f r
  refine ⟨?_, ?_, ?_, ?_⟩
  · intro hr hf
    rw [h1, h2, hr, hf]
    exact ⟨rfl, rfl⟩
  · intro hr
    rw [h1, h2, hr]
    exact ⟨by simp, rfl⟩
  · intro hr hf
    rw [h1, hr, hf]
    rfl
  · intro f2 r2 hf hr hr2
    obtain ⟨g1, -, -, -, -, -⟩ := evaluateFrame_spec (evaluateFrame st f r).2 f2 r2
    constructor
    · rw [h1, hr, hf]
      rfl
    · rw [g1, hr2, h2, hr]
      rfl

/-- C1 witness: a concrete two-frame run in which both calls satisfy
the raw condition; the first call reports the accident and the second
is suppressed by the already-set flag. -/
theorem detect_edge_trigger_witness :
    (evaluateFrame ⟨1/2, some [0], false⟩ [255]
        (some [⟨2, 9/10, none⟩])).1.is_accident = true ∧
    (evaluateFrame (evaluateFrame ⟨1/2, some [0], false⟩ [255]
        (some [⟨2, 9/10, none⟩])).2 [0]
        (some [⟨2, 9/10, none⟩])).1.is_accident = false := by
  have hst : (evaluateFrame ⟨1/2, some [0], false⟩ [255]
      (some [⟨2, 9/10, none⟩])).2 =
      ⟨1/2, some [255], true⟩ := by
    simp [evaluateFrame, processResults, processResult, processBoxes,
      vehicleClasses, motionScore]
    norm_num
  refine (detect_edge_trigger ⟨1/2, some [0], false⟩ [255]
      (some [⟨2, 9/10, none⟩])).2.2.2 [0] (some [⟨2, 9/10, none⟩]) rfl ?_ ?_
  · simp [rawCondition, processResult, processBoxes, vehicleClasses, motionScore]
    norm_num
  · rw [hst]
    simp [rawCondition, processResult, processBoxes, vehicleClasses, motionScore]
    norm_num

/-- C5 counterexample: in a two-call run in which the raw condition is
true at both calls, the flag after the second call is true, while the
claimed characterisation (raw condition true now and false at the
previous call) evaluates to false, so the claimed iff fails. -/
theorem accident_flag_history_cex :
    (evaluateFrame (evaluateFrame ⟨1/2, some [0], false⟩ [255]
        (some [⟨2, 9/10, none⟩])).2 [0]
        (some [⟨2, 9/10, none⟩])).2.accident_detected = true
    ∧ ¬((rawCondition (evaluateFrame ⟨1/2, some [0], false⟩ [255]
          (some [⟨2, 9/10, none⟩])).2 [0] (some [⟨2, 9/10, none⟩])
        && !rawCondition ⟨1/2, some [0], false⟩ [255]
          (some [⟨2, 9/10, none⟩])) = true) := by
  have hst : (evaluateFrame ⟨1/2, some [0], false⟩ [255]
      (some [⟨2, 9/10, none⟩])).2 =
      ⟨1/2, some [255], true⟩ := by
    simp [evaluateFrame, processResults, processResult, processBoxes,
      vehicleClasses, motionScore]
    norm_num
  rw [hst]
  constructor
  · simp [evaluateFrame, processResults, processResult, processBoxes,
      vehicleClasses, motionScore]
    norm_num
  · simp [rawCondition, processResult, processBoxes, vehicleClasses, motionScore]
    norm_num

/-- C5 amended: after a model-backed call the stored accident flag
equals the raw condition of that very call; it does not additionally
require the raw condition to have been false at the previous call. -/
theorem accident_flag_tracks_raw (st : DetectorState) (f : Frame)
    (r : Option (List YoloBox)) :
    (evaluateFrame st f r).2.accident_detected = rawCondition st f r :=
  (evaluateFrame_spec st f r).2.1

/-- processBoxes adds exactly one contribution of confidence times
motion for every surviving vehicle detection when a previous frame
exists and the motion score exceeds 0.15. -/
theorem processBoxes_score (p f : Frame) (boxes : List YoloBox)
    (hm : motionScore p f > 0.15) :
    ∀ (s : ℚ) (c : ℕ) (i : List BoxInfo),
    (processBoxes (some p) f boxes (s, c, i)).1
      = s + ((survivingVehicleBoxes boxes).map
          (fun b => b.conf * motionScore p f)).sum := by
  induction boxes with
  | nil => intro s c i; simp [processBoxes, survivingVehicleBoxes]
  | cons b rest ih =>
    intro s c i
    by_cases hb : b.cls ∈ vehicleClasses ∧ b.conf > 0.3
    · simp only [processBoxes, hb, hm, and_self, if_true, if_pos,
        decide_eq_true_eq]
      rw [ih]
      simp only [survivingVehicleBoxes, List.filter_cons, hb, and_self,
        if_true, List.map_cons, List.sum_cons, decide_eq_true_eq]
      ring
    · simp only [processBoxes, if_neg hb]
      rw [ih]
      simp only [survivingVehicleBoxes, List.filter_cons,
        decide_eq_true_eq, hb, if_false]

/-- C2: on the model-backed path, when a previous frame exists and the
motion score exceeds 0.15, the accident score that feeds the returned
decision is the full sum of confidence times motion over every
surviving vehicle detection of the frame; no early return cuts any
qualifying detection out of the returned score. -/
theorem accident_score_full_sum (st : DetectorState) (f : Frame)
    (boxes : List YoloBox) (p : Frame)
    (hp : st.previous_frame = some p) (hm : motionScore p f > 0.15) :
    (evaluateFrame st f (some boxes)).1.accident_score
      = ((survivingVehicleBoxes boxes).map
          (fun b => b.conf * motionScore p f)).sum := by
  have h := (evaluateFrame_spec st f (some boxes)).2.2.2.2.1
  rw [h]
  unfold processResult
  rw [hp, processBoxes_score p f boxes hm 0 0 []]
  ring

/-- C2 witness: with previous frame present and motion score 1, two
surviving detections of confidence 9/10 and 4/10 both contribute, and
the returned score is 13/10. -/
theorem accident_score_full_sum_witness :
    motionScore [0] [255] > 0.15
    ∧ (evaluateFrame ⟨1/2, some [0], false⟩ [255]
        (some [⟨2, 9/10, none⟩, ⟨3, 4/10, none⟩])).1.accident_score
      = ((survivingVehicleBoxes [⟨2, 9/10, none⟩, ⟨3, 4/10, none⟩]).map
          (fun b => b.conf * motionScore [0] [255])).sum := by
  constructor
  · simp [motionScore]
    norm_num
  · exact accident_score_full_sum ⟨1/2, some [0], false⟩ [255]
      [⟨2, 9/10, none⟩, ⟨3, 4/10, none⟩] [0] rfl
      (by simp [motionScore]; norm_num)

/-- processResults never modifies the running threshold. -/
theorem processResults_threshold (f : Frame)
    (results : List (Option (List YoloBox))) :
    ∀ (st : DetectorState) (s : ℚ) (c : ℕ) (i : List BoxInfo),
    ((processResults f results st s c i).2).accident_threshold
      = st.accident_threshold := by
  induction results with
  | nil => intro st s c i; simp [processResults]
  | cons r rest ih =>
    intro st s c i
    simp only [processResults]
    split_ifs with h1 h2
    · rfl
    · exact ih _ _ _ _
    · exact ih _ _ _ _

/-- detect_accident never modifies the running threshold. -/
theorem detect_accident_threshold (cv yolo ml : Bool) (ms : ℚ) (mv : ℕ)
    (st : DetectorState) (f : Frame)
    (results : List (Option (List YoloBox))) :
    ((detect_accident cv yolo ml ms mv st f results).2).accident_threshold
      = st.accident_threshold := by
  unfold detect_accident
  split_ifs with h
  · rfl
  · exact processResults_threshold f results st 0 0 []

/-- C8: after a detect call carrying a numeric threshold override, the
effective running threshold is the override clamped to the interval
from 0.1 to 1.0; an override of -5 yields 0.1, an override of 50 yields
1.0, and an in-range override is stored unchanged.  This holds on every
path of the route, since nothing after the clamp writes the
threshold. -/
theorem threshold_clamp (env : ServerEnv) (srv : ServerState)
    (req : DetectRequest) (draws : RandomDraws) (now : ℚ) (frame : Frame)
    (results : List (Option (List YoloBox))) (sr : Bool) (t : ℚ)
    (ht : req.threshold = some t) :
    (detect_route env srv req draws now frame results
        sr).server.detector.accident_threshold = max 0.1 (min 1.0 t)
    ∧ (t = -5 → (detect_route env srv req draws now frame results
        sr).server.detector.accident_threshold = 0.1)
    ∧ (t = 50 → (detect_route env srv req draws now frame results
        sr).server.detector.accident_threshold = 1)
    ∧ (0.1 ≤ t → t ≤ 1 → (detect_route env srv req draws now frame results
        sr).server.detector.accident_threshold = t) := by
  have hbase : (detect_route env srv req draws now frame results
      sr).server.detector.accident_threshold = max 0.1 (min 1.0 t) := by
    unfold detect_route
    split_ifs with h1 h2
    · simp [updateThreshold, ht]
    · simp [updateThreshold, ht]
    · simp only
      rw [detect_accident_threshold]
      simp [updateThreshold, ht]
  refine ⟨hbase, ?_, ?_, ?_⟩
  · intro h5
    rw [hbase, h5]
    norm_num
  · intro h50
    rw [hbase, h50]
    norm_num
  · intro hlo hhi
    rw [hbase, min_eq_right (le_trans hhi (by norm_num)), max_eq_right hlo]

/-- C8 witness: a concrete request with override 50 stores effective
threshold 1, applying the clamp theorem at an explicit input. -/
theorem threshold_clamp_witness :
    (detect_route ⟨true, true, true, 20⟩ ⟨⟨1/2, none, false⟩, 0⟩
        ⟨true, some 50⟩ ⟨0, 0, 0, 0, 0⟩ 100 [0] []
        false).server.detector.accident_threshold = 1 :=
  (threshold_clamp ⟨true, true, true, 20⟩ ⟨⟨1/2, none, false⟩, 0⟩
      ⟨true, some 50⟩ ⟨0, 0, 0, 0, 0⟩ 100 [0] [] false 50 rfl).2.2.1 rfl

/-- C3: the cooldown gate is a pure time policy with update iff pass:
the check passes exactly when now minus the stored timestamp is at
least the cooldown, the timestamp becomes now exactly on a pass, the
default cooldown is 20 seconds, the first-ever check passes for every
clock reading at least the cooldown past the zero initialisation, and
two sequential checks less than one cooldown window apart can never
both pass. -/
theorem gate_policy (cooldown last now now2 : ℚ) :
    ((gateCheck cooldown last now).1 = true ↔ now - last ≥ cooldown)
    ∧ ((gateCheck cooldown last now).1 = true →
        (gateCheck cooldown last now).2 = now)
    ∧ ((gateCheck cooldown last now).1 = false →
        (gateCheck cooldown last now).2 = last)
    ∧ ALERT_COOLDOWN_SECONDS = 20
    ∧ last_alert_time_init = 0
    ∧ (cooldown ≤ now → (gateCheck cooldown last_alert_time_init now).1 = true)
    ∧ (now < now2 → now2 - now < cooldown →
        ¬((gateCheck cooldown last now).1 = true ∧
          (gateCheck cooldown (gateCheck cooldown last now).2 now2).1 = true)) := by
  refine ⟨?_, ?_, ?_, rfl, rfl, ?_, ?_⟩
  · unfold gateCheck
    split_ifs with h
    · simp [h]
    · simp [h]
  · unfold gateCheck
    split_ifs with h
    · exact fun _ => rfl
    · intro hx
      exact absurd hx (by simp)
  · unfold gateCheck
    split_ifs with h
    · intro hx
      exact absurd hx (by simp)
    · exact fun _ => rfl
  · intro hcn
    have e : gateCheck cooldown last_alert_time_init now = (true, now) := by
      unfold gateCheck last_alert_time_init
      rw [if_pos (by linarith)]
    rw [e]
  · intro hlt hwin hboth
    obtain ⟨h1, h2⟩ := hboth
    by_cases hA : now - last ≥ cooldown
    · have e1 : gateCheck cooldown last now = (true, now) := by
        unfold gateCheck
        rw [if_pos hA]
      rw [e1] at h2
      have h2x : (gateCheck cooldown now now2).1 = true := h2
      have e2 : gateCheck cooldown now now2 = (false, now) := by
        unfold gateCheck
        rw [if_neg (by linarith)]
      rw [e2] at h2x
      exact absurd h2x (by simp)
    · have e1 : gateCheck cooldown last now = (false, last) := by
        unfold gateCheck
        rw [if_neg hA]
      rw [e1] at h1
      exact absurd h1 (by simp)

/-- C3 witness: with cooldown 20 and stored timestamp 0, a check at
time 100 passes and a second check at time 110 cannot also pass. -/
theorem gate_policy_witness :
    (gateCheck 20 0 100).1 = true
    ∧ ¬((gateCheck 20 0 100).1 = true ∧
        (gateCheck 20 (gateCheck 20 0 100).2 110).1 = true) := by
  refine ⟨?_, (gate_policy 20 0 100 110).2.2.2.2.2.2 (by norm_num) (by norm_num)⟩
  exact (gate_policy 20 0 100 110).1.mpr (by norm_num)

/-- C6: the gate check-and-set in the detect route is not atomic; in
the interleaving where both request threads evaluate the comparison
before either writes the timestamp, two concurrent calls 10 seconds
apart both pass the gate within one 20-second cooldown window. -/
theorem gate_race_both_pass :
    (runSchedule 20 [false, true, false, true]
        ⟨0, ⟨100, 0, false⟩, ⟨110, 0, false⟩⟩).thread0.passed = true
    ∧ (runSchedule 20 [false, true, false, true]
        ⟨0, ⟨100, 0, false⟩, ⟨110, 0, false⟩⟩).thread1.passed = true
    ∧ (110 - 100 : ℚ) < 20 := by
  refine ⟨?_, ?_, by norm_num⟩ <;>
    · simp [runSchedule, systemStep, threadStep]
      norm_num

/-- send_alert evaluated on the path where neither store raises. -/
theorem send_alert_eval_ok (env : AlertEnv)
    (h1 : ¬(env.mongo_active = true ∧ env.mongo_insert_ok = false))
    (h2 : ¬(env.firestore_active = true ∧ env.firestore_add_ok = false)) :
    send_alert env =
      ⟨true, (if env.twilio_active then 2 else 0),
       (if env.twilio_active then
          (List.range 2).filter (fun i => env.sms_ok.getD i true = false)
        else []),
       env.firestore_active, true, true⟩ := by
  unfold send_alert
  rw [if_neg h1, if_neg h2]
  rfl

/-- send_alert evaluated when the primary insert raises. -/
theorem send_alert_eval_primary_fail (env : AlertEnv)
    (h1 : env.mongo_active = true ∧ env.mongo_insert_ok = false) :
    send_alert env = ⟨false, 0, [], false, false, false⟩ := by
  unfold send_alert
  rw [if_pos h1]

/-- send_alert evaluated when the mirror add raises. -/
theorem send_alert_eval_mirror_fail (env : AlertEnv)
    (h1 : ¬(env.mongo_active = true ∧ env.mongo_insert_ok = false))
    (h2 : env.firestore_active = true ∧ env.firestore_add_ok = false) :
    send_alert env =
      ⟨true, (if env.twilio_active then 2 else 0),
       (if env.twilio_active then
          (List.range 2).filter (fun i => env.sms_ok.getD i true = false)
        else []),
       true, false, false⟩ := by
  unfold send_alert
  rw [if_neg h1, if_pos h2]
  rfl

/-- C4 counterexample: one failing sub-operation does short-circuit the
fan-out, and the returned value carries no per-channel status.  With a
raising mirror add, the email attempt is skipped and the call returns
false; the returned boolean is identical whether the first SMS
recipient failed or succeeded; and a raising primary insert prevents
every SMS attempt. -/
theorem send_alert_short_circuit_cex :
    ((send_alert ⟨true, true, true, [false, true], true, false, true,
        true⟩).email_attempted = false
      ∧ (send_alert ⟨true, true, true, [false, true], true, false, true,
        true⟩).returned = false)
    ∧ (send_alert ⟨true, true, true, [false, true], true, true, true,
        true⟩).returned
        = (send_alert ⟨true, true, true, [true, true], true, true, true,
        true⟩).returned
    ∧ (send_alert ⟨true, false, true, [true, true], true, true, true,
        true⟩).sms_attempted = 0 := by
  have e1 := send_alert_eval_mirror_fail
    ⟨true, true, true, [false, true], true, false, true, true⟩ (by simp) (by simp)
  have e2 := send_alert_eval_ok
    ⟨true, true, true, [false, true], true, true, true, true⟩ (by simp) (by simp)
  have e3 := send_alert_eval_ok
    ⟨true, true, true, [true, true], true, true, true, true⟩ (by simp) (by simp)
  have e4 := send_alert_eval_primary_fail
    ⟨true, false, true, [true, true], true, true, true, true⟩ (by simp)
  rw [e1, e2, e3, e4]
  exact ⟨⟨rfl, rfl⟩, rfl, rfl⟩

/-- C4 amended: send_alert never raises to its caller (the outer
handler converts an escaping failure into a false return) and a
failing SMS recipient is caught inside the loop, never preventing the
other recipients, the mirror write, the email attempt, the persisted
record, or a true return; however a raising primary insert skips every
later sub-operation and a raising mirror add skips the email attempt,
each returning false, and the returned value is a single boolean, not
a per-channel report. -/
theorem send_alert_amended (env : AlertEnv) :
    ((env.mongo_active = true → env.mongo_insert_ok = true) →
      (env.firestore_active = true → env.firestore_add_ok = true) →
      (send_alert env).persisted_primary = true
      ∧ (send_alert env).email_attempted = true
      ∧ (env.twilio_active = true → (send_alert env).sms_attempted = 2)
      ∧ (send_alert env).returned = true)
    ∧ (env.mongo_active = true → env.mongo_insert_ok = false →
        send_alert env = ⟨false, 0, [], false, false, false⟩)
    ∧ (env.firestore_active = true → env.firestore_add_ok = false →
        (env.mongo_active = true → env.mongo_insert_ok = true) →
        (send_alert env).email_attempted = false
        ∧ (send_alert env).returned = false) := by
  refine ⟨?_, ?_, ?_⟩
  · intro hmo hfs
    have hm : ¬(env.mongo_active = true ∧ env.mongo_insert_ok = false) := by
      rintro ⟨ha, hb⟩
      simp [hmo ha] at hb
    have hf : ¬(env.firestore_active = true ∧ env.firestore_add_ok = false) := by
      rintro ⟨ha, hb⟩
      simp [hfs ha] at hb
    rw [send_alert_eval_ok env hm hf]
    refine ⟨rfl, rfl, ?_, rfl⟩
    intro ht
    simp [ht]
  · intro ha hb
    exact send_alert_eval_primary_fail env ⟨ha, hb⟩
  · intro ha hb hmo
    have hm : ¬(env.mongo_active = true ∧ env.mongo_insert_ok = false) := by
      rintro ⟨hc, hd⟩
      simp [hmo hc] at hd
    rw [send_alert_eval_mirror_fail env hm ⟨ha, hb⟩]
    exact ⟨rfl, rfl⟩

/-- C4 witness: with one failing and one succeeding SMS recipient and
both stores healthy, the record is persisted, the email attempt is
performed, both recipients are attempted, and the call returns true. -/
theorem send_alert_amended_witness :
    (send_alert ⟨true, true, true, [false, true], true, true, true,
      true⟩).persisted_primary = true
    ∧ (send_alert ⟨true, true, true, [false, true], true, true, true,
      true⟩).email_attempted = true
    ∧ (send_alert ⟨true, true, true, [false, true], true, true, true,
      true⟩).sms_attempted = 2
    ∧ (send_alert ⟨true, true, true, [false, true], true, true, true,
      true⟩).returned = true := by
  obtain ⟨h1, h2, h3, h4⟩ :=
    (send_alert_amended ⟨true, true, true, [false, true], true, true, true,
      true⟩).1 (fun _ => rfl) (fun _ => rfl)
  exact ⟨h1, h2, h3 rfl, h4⟩

/-- C7 counterexample: with computer vision and YOLO available but no
loaded model, the detect response is produced by the detector-level
mock yet carries no demo_mode key, so the degraded outcome is not
flagged and a caller cannot distinguish it from a model-backed
result. -/
theorem degraded_mode_unflagged_cex :
    (detect_route ⟨true, true, false, 20⟩ ⟨⟨1/2, none, false⟩, 0⟩
        ⟨true, none⟩ ⟨0, 0, 0, 1/2, 1⟩ 100 [0] []
        false).response.demo_mode = none
    ∧ ¬((detect_route ⟨true, true, false, 20⟩ ⟨⟨1/2, none, false⟩, 0⟩
        ⟨true, none⟩ ⟨0, 0, 0, 1/2, 1⟩ 100 [0] []
        false).response.demo_mode = some true) := by
  have e : (detect_route ⟨true, true, false, 20⟩ ⟨⟨1/2, none, false⟩, 0⟩
      ⟨true, none⟩ ⟨0, 0, 0, 1/2, 1⟩ 100 [0] []
      false).response.demo_mode = none := by
    unfold detect_route
    rw [if_neg (by simp), if_neg (by simp)]
  rw [e]
  exact ⟨rfl, by simp⟩

/-- C7 amended: with no loaded model the detector returns the mock
outcome built from the pseudo-random draws, confidence equal to the
uniform draw from the interval 0.1 to 0.9, vehicle count equal to the
draw from 0 to 3, is_accident by the same threshold and vehicle-count
rule, and the state untouched; however the outcome is NOT flagged as
degraded: the detect response on this path carries no demo_mode key
and is shaped exactly like a model-backed response. -/
theorem degraded_mode_behavior (st : DetectorState) (u : ℚ) (v : ℕ)
    (f : Frame) (results : List (Option (List YoloBox)))
    (env : ServerEnv) (srv : ServerState) (req : DetectRequest)
    (draws : RandomDraws) (now : ℚ) (sr : Bool)
    (himg : req.image_present = true) (hcv : env.cv_available = true)
    (hyolo : env.yolo_available = true) (hml : env.model_loaded = false) :
    detect_accident true true false u v st f results
      = (⟨decide (u > st.accident_threshold ∧ 0 < v), u, v, []⟩, st)
    ∧ (detect_route env srv req draws now f results sr).response.demo_mode
      = none := by
  constructor
  · unfold detect_accident
    rw [if_pos (by simp)]
  · unfold detect_route
    rw [if_neg (by simp [himg]), if_neg (by simp [hcv, hyolo])]

/-- C7 witness: the degraded-mode description instantiated at a
concrete request with model absent. -/
theorem degraded_mode_behavior_witness :
    detect_accident true true false (1/2) 1 ⟨1/2, none, false⟩ [0] []
      = (⟨decide ((1/2 : ℚ) > (1/2 : ℚ) ∧ 0 < 1), 1/2, 1, []⟩,
         ⟨1/2, none, false⟩)
    ∧ (detect_route ⟨true, true, false, 20⟩ ⟨⟨1/2, none, false⟩, 0⟩
        ⟨true, none⟩ ⟨0, 0, 0, 1/2, 1⟩ 100 [0] []
        false).response.demo_mode = none :=
  degraded_mode_behavior ⟨1/2, none, false⟩ (1/2) 1 [0] []
    ⟨true, true, false, 20⟩ ⟨⟨1/2, none, false⟩, 0⟩ ⟨true, none⟩
    ⟨0, 0, 0, 1/2, 1⟩ 100 false rfl rfl rfl rfl

/-- C9: the accidents history is returned in non-increasing timestamp
order with at most 50 entries, and the two backends realise the same
ordering contract. -/
theorem get_accidents_sorted_bounded (b : Bool) (db : List AccidentRecord) :
    List.Pairwise (fun a c : AccidentRecord => c.timestamp ≤ a.timestamp)
      (get_accidents b db)
    ∧ (get_accidents b db).length ≤ 50
    ∧ get_accidents true db = get_accidents false db := by
  have hsort : List.Pairwise (fun a c : AccidentRecord => tsDesc a c = true)
      (db.mergeSort tsDesc) := by
    refine List.sorted_mergeSort ?_ ?_ db
    · intro a c e hab hbc
      simp only [tsDesc, decide_eq_true_eq] at hab hbc ⊢
      omega
    · intro a c
      simp only [tsDesc, Bool.or_eq_true, decide_eq_true_eq]
      omega
  have hbr : get_accidents b db = (db.mergeSort tsDesc).take 50 := by
    cases b <;>
      simp [get_accidents, get_accidents_mem, get_accidents_mongo]
  refine ⟨?_, ?_, rfl⟩
  · rw [hbr]
    refine List.Pairwise.imp ?_
      (List.Pairwise.sublist (List.take_sublist 50 _) hsort)
    intro a c h
    simpa [tsDesc] using h
  · rw [hbr, List.length_take]
    exact min_le_left _ _

/-- C10: when the cooldown gate passes for an accident-positive
model-backed evaluation, the route invokes send_alert, advances
last_alert_time to now, and reports alert_sent true; the whole route
result is identical whether send_alert returned false or true, and the
consumed cooldown window suppresses every gate check less than one
window later. -/
theorem alert_sent_regardless_of_dispatch (env : ServerEnv)
    (srv : ServerState) (req : DetectRequest) (draws : RandomDraws)
    (now : ℚ) (frame : Frame) (results : List (Option (List YoloBox)))
    (himg : req.image_present = true) (hcv : env.cv_available = true)
    (hyolo : env.yolo_available = true)
    (hacc : (detect_accident env.cv_available env.yolo_available
        env.model_loaded draws.mock_score draws.mock_vehicles
        (updateThreshold srv.detector req.threshold) frame
        results).1.is_accident = true)
    (hgate : now - srv.last_alert_time ≥ env.cooldown) :
    (detect_route env srv req draws now frame results
        false).dispatch_called = true
    ∧ (detect_route env srv req draws now frame results
        false).response.alert_sent = some true
    ∧ (detect_route env srv req draws now frame results
        false).server.last_alert_time = now
    ∧ detect_route env srv req draws now frame results false
        = detect_route env srv req draws now frame results true
    ∧ (∀ now2 : ℚ, now2 - now < env.cooldown →
        (gateCheck env.cooldown (detect_route env srv req draws now frame
          results false).server.last_alert_time now2).1 = false) := by
  have happ : applyGate env.cooldown
      (detect_accident env.cv_available env.yolo_available env.model_loaded
        draws.mock_score draws.mock_vehicles
        (updateThreshold srv.detector req.threshold) frame
        results).1.is_accident now srv.last_alert_time
      = (some true, false, now, true) := by
    rw [hacc]
    unfold applyGate gateCheck
    rw [if_pos rfl, if_pos hgate]
    rfl
  have hroute : ∀ sr : Bool, detect_route env srv req draws now frame results sr
      = ⟨⟨false,
          (detect_accident env.cv_available env.yolo_available env.model_loaded
            draws.mock_score draws.mock_vehicles
            (updateThreshold srv.detector req.threshold) frame
            results).1.is_accident,
          (detect_accident env.cv_available env.yolo_available env.model_loaded
            draws.mock_score draws.mock_vehicles
            (updateThreshold srv.detector req.threshold) frame
            results).1.accident_score,
          (detect_accident env.cv_available env.yolo_available env.model_loaded
            draws.mock_score draws.mock_vehicles
            (updateThreshold srv.detector req.threshold) frame
            results).1.vehicles_detected,
          (detect_accident env.cv_available env.yolo_available env.model_loaded
            draws.mock_score draws.mock_vehicles
            (updateThreshold srv.detector req.threshold) frame
            results).1.boxes,
          none, some true, false⟩, true,
         ⟨(detect_accident env.cv_available env.yolo_available env.model_loaded
            draws.mock_score draws.mock_vehicles
            (updateThreshold srv.detector req.threshold) frame
            results).2, now⟩⟩ := by
    intro sr
    unfold detect_route
    rw [if_neg (by simp [himg]), if_neg (by simp [hcv, hyolo])]
    simp only [happ]
  refine ⟨?_, ?_, ?_, ?_, ?_⟩
  · rw [hroute false]
  · rw [hroute false]
  · rw [hroute false]
  · rw [hroute false, hroute true]
  · intro now2 hwin
    rw [hroute false]
    show (gateCheck env.cooldown now now2).1 = false
    unfold gateCheck
    rw [if_neg (by linarith)]

/-- C10 witness: a concrete model-backed accident with the gate open at
time 100 dispatches, reports alert_sent true, stores 100 as the new
timestamp, is unchanged by the dispatch result, and suppresses a check
at time 110. -/
theorem alert_sent_regardless_of_dispatch_witness :
    (detect_route ⟨true, true, true, 20⟩ ⟨⟨1/2, some [0], false⟩, 0⟩
        ⟨true, none⟩ ⟨0, 0, 0, 0, 0⟩ 100 [255] [some [⟨2, 9/10, none⟩]]
        false).dispatch_called = true
    ∧ (detect_route ⟨true, true, true, 20⟩ ⟨⟨1/2, some [0], false⟩, 0⟩
        ⟨true, none⟩ ⟨0, 0, 0, 0, 0⟩ 100 [255] [some [⟨2, 9/10, none⟩]]
        false).response.alert_sent = some true
    ∧ (detect_route ⟨true, true, true, 20⟩ ⟨⟨1/2, some [0], false⟩, 0⟩
        ⟨true, none⟩ ⟨0, 0, 0, 0, 0⟩ 100 [255] [some [⟨2, 9/10, none⟩]]
        false).server.last_alert_time = 100
    ∧ detect_route ⟨true, true, true, 20⟩ ⟨⟨1/2, some [0], false⟩, 0⟩
        ⟨true, none⟩ ⟨0, 0, 0, 0, 0⟩ 100 [255] [some [⟨2, 9/10, none⟩]] false
      = detect_route ⟨true, true, true, 20⟩ ⟨⟨1/2, some [0], false⟩, 0⟩
        ⟨true, none⟩ ⟨0, 0, 0, 0, 0⟩ 100 [255] [some [⟨2, 9/10, none⟩]] true := by
  obtain ⟨h1, h2, h3, h4, -⟩ :=
    alert_sent_regardless_of_dispatch ⟨true, true, true, 20⟩
      ⟨⟨1/2, some [0], false⟩, 0⟩ ⟨true, none⟩ ⟨0, 0, 0, 0, 0⟩ 100 [255]
      [some [⟨2, 9/10, none⟩]] rfl rfl rfl
      (by
        simp [detect_accident, updateThreshold, processResults, processResult,
          processBoxes, motionScore, vehicleClasses]
        norm_num)
      (by norm_num)
  exact ⟨h1, h2, h3, h4⟩
